import Mathlib

set_option autoImplicit false
set_option maxHeartbeats 1000000

/-! Shallow embedding of src/src/other/io/scroll.c — the Scroll (file handle)
binding of the squire scripting language — together with models of the C
stream primitives it calls (fread, fwrite, fseek, ftell, fgetln, strdup,
strndup) and of the pieces of the host runtime it uses (texts, dynamic
values, the exception mechanism).  Machine integers that matter (bytes,
offsets) are modelled as Nat/Int; fallible operations return an explicit
result type. -/

/-- A byte, as stored in a file or in a text buffer. -/
abbrev Byte := Nat

/-- Model of a C FILE stream: the file's byte contents, the current stream
position, and the stream error indicator that ferror reads. -/
structure SqFile where
  contents : List Byte
  pos : Nat
  err : Bool
deriving DecidableEq

/-- Model of fread(buf, 1, n, f) on a regular file: it transfers
min(n, bytes remaining after pos) bytes and advances the position; a zero
return value marks end of stream.  The error indicator is untouched (a
regular-file read past the end is end-of-stream, not an error). -/
def SqFile.fread (f : SqFile) (n : Nat) : SqFile × List Byte :=
  let chunk := (f.contents.drop f.pos).take n
  ({ f with pos := f.pos + chunk.length }, chunk)

/-- Model of fwrite(ptr, 1, data.length, f) where the OS accepts at most
osMax bytes this call: the transferred prefix of data lands at the current
position (zero-filling any gap when the position is past the end, as a
seek past end-of-file then write does) and the position advances by the
transfer count, which is returned. -/
def SqFile.fwrite (f : SqFile) (data : List Byte) (osMax : Nat) : SqFile × Nat :=
  let k := min data.length osMax
  let written := data.take k
  let padded := f.contents ++ List.replicate (f.pos - f.contents.length) 0
  ({ f with
      contents := padded.take f.pos ++ written ++ padded.drop (f.pos + k),
      pos := f.pos + k },
   k)

/-- Target offset a whence-relative fseek asks for: whence 0 counts from
the start, 1 from the current position, 2 from the end; any other whence
is invalid (EINVAL). -/
def SqFile.fseekTarget (f : SqFile) (offset : Int) (whence : Int) : Option Int :=
  if whence = 0 then some offset
  else if whence = 1 then some ((f.pos : Int) + offset)
  else if whence = 2 then some ((f.contents.length : Int) + offset)
  else none

/-- Model of fseek(f, offset, whence): fails (returns none) on an invalid
whence or a negative resulting offset; seeking past the end is allowed. -/
def SqFile.fseek (f : SqFile) (offset : Int) (whence : Int) : Option SqFile :=
  match f.fseekTarget offset whence with
  | none => none
  | some t => if t < 0 then none else some { f with pos := t.toNat }

/-- Model of ftell(f): the current position.  Positions are naturals here,
so the negative-return failure of the C call cannot occur in the model. -/
def SqFile.ftell (f : SqFile) : Int := f.pos

/-- One line of a byte stream: everything up to and including the first
newline byte (10), or everything left when no newline follows. -/
def takeLine : List Byte → List Byte
  | [] => []
  | b :: rest => if b = 10 then [10] else b :: takeLine rest

/-- Model of fgetln(f, &len): returns none when no data is available
(end of stream); otherwise returns one line, terminator included when
present, and advances the position past it. -/
def SqFile.fgetln (f : SqFile) : SqFile × Option (List Byte) :=
  let rest := f.contents.drop f.pos
  if rest.isEmpty then (f, none)
  else ({ f with pos := f.pos + (takeLine rest).length }, some (takeLine rest))

/-- Reading a byte buffer as a C string: the bytes before the first NUL. -/
def cstr (l : List Byte) : List Byte := l.takeWhile (fun b => b != 0)

/-- Model of strdup(s): duplicate a C string up to its NUL, terminator
included in the fresh buffer. -/
def strdup (l : List Byte) : List Byte := cstr l ++ [0]

/-- Model of strndup(s, n): duplicate at most n bytes of s, stopping early
at a NUL, and append a terminator to the fresh buffer. -/
def strndup (l : List Byte) (n : Nat) : List Byte := cstr (l.take n) ++ [0]

/-- The bytes of a Lean string, for embedding the C string literals and
the strdup'd filename/mode fields. -/
def strBytes (s : String) : List Byte := s.data.map Char.toNat

/-- Model of struct sq_text: per spec §3/§6 a text is a length-prefixed
byte buffer (length field plus buffer); the buffer may hold more bytes
than length (slack and a trailing NUL). -/
structure SqText where
  length : Nat
  ptr : List Byte
deriving DecidableEq

/-- The observable byte content of a text: the first length bytes of its
buffer. -/
def SqText.bytes (t : SqText) : List Byte := t.ptr.take t.length

/-- Modelled from the spec: sq_text_allocate (squire/text.h, implementation
not under src/) allocates a text of the given length — a length-prefixed
buffer with room for length bytes plus a trailing NUL; the fresh buffer is
modelled zero-initialized. -/
def sq_text_allocate (n : Nat) : SqText :=
  { length := n, ptr := List.replicate (n + 1) 0 }

/-- Modelled from the spec: sq_text_new (squire/text.h, implementation not
under src/) takes ownership of a NUL-terminated C string; its only length
information is the string itself, so the text's length field is strlen of
the buffer (this is the NUL-truncation behavior spec §6 warns about). -/
def sq_text_new (p : List Byte) : SqText :=
  { length := (cstr p).length, ptr := p }

/-- Raised errors.  Modelled from the spec (§7): sq_throw and sq_throw_io
(squire/exception.h, implementation not under src/) both raise a catchable
host exception carrying a message; thrown covers them.  die is a fatal
process abort (not catchable), used by the code's todo stubs. -/
inductive SqError where
  | thrown (msg : String)
  | fatal (msg : String)
deriving DecidableEq

/-- Result of a native operation: a value, or a raised error. -/
inductive SqRes (α : Type) where
  | ok (val : α)
  | error (e : SqError)
deriving DecidableEq

/-- Map a function over the ok value of a result. -/
def SqRes.map {α β : Type} (f : α → β) : SqRes α → SqRes β
  | .ok a => .ok (f a)
  | .error e => .error e

/-- The OS calls a scroll operation can issue, recorded in order so that
"no OS call is issued" claims are statable. -/
inductive OsCall where
  | read (requested : Nat)
  | write (requested : Nat)
  | seek (offset : Int) (whence : Int)
  | tell
  | getln
  | close
deriving DecidableEq

/-- Model of struct sq_scroll: the FILE stream plus the strdup'd filename
and mode strings (NUL-free by construction, hence plain Strings here).
Note the struct has no open/closed state field. -/
structure Scroll where
  file : SqFile
  filename : String
  mode : String
deriving DecidableEq

/-- Outcome of one scroll operation: the result (or raised error), the
scroll afterwards, and the OS calls issued, in order. -/
structure OsOutcome (α : Type) where
  result : SqRes α
  scroll : Scroll
  calls : List OsCall
deriving DecidableEq

/-- The fread loop of sq_scroll_read (lines 78-79):
while ((nread = fread(&ptr[position], 1, length - position, file)))
position += nread; — it accumulates chunks until a read transfers zero
bytes.  fuel bounds the iteration count; length + 1 suffices since every
continuing iteration transfers at least one byte. -/
def readLoop (length : Nat) : SqFile → List Byte → Nat → SqFile × List Byte × List OsCall
  | f, acc, 0 => (f, acc, [])
  | f, acc, fuel + 1 =>
    let r := f.fread (length - acc.length)
    if r.2.length = 0 then (r.1, acc, [OsCall.read (length - acc.length)])
    else
      let rest := readLoop length r.1 (acc ++ r.2) fuel
      (rest.1, rest.2.1, OsCall.read (length - acc.length) :: rest.2.2)

/-- sq_scroll_read (lines 73-88): allocate a text of the requested length,
run the fread loop, then throw (freeing the text) if ferror reports an
error, else NUL-terminate the buffer at the final position and return the
text.  The length field set by sq_text_allocate is never updated. -/
def sq_scroll_read (s : Scroll) (length : Nat) : OsOutcome SqText :=
  let text := sq_text_allocate length
  let out := readLoop length s.file [] (length + 1)
  if out.1.err then
    { result := .error (.thrown
        ("unable to read " ++ toString length ++ " bytes from '" ++ s.filename ++ "'")),
      scroll := { s with file := out.1 },
      calls := out.2.2 }
  else
    { result := .ok
        { length := text.length,
          ptr := (out.2.1 ++ text.ptr.drop out.2.1.length).set out.2.1.length 0 },
      scroll := { s with file := out.1 },
      calls := out.2.2 }

/-- sq_scroll_read_all (lines 90-97): a conditionally-compiled todo stub;
on the reference platform it unconditionally aborts via
die("todo: sq_scroll_read_all") before touching the stream. -/
def sq_scroll_read_all (s : Scroll) : OsOutcome SqText :=
  { result := .error (.fatal "todo: sq_scroll_read_all"), scroll := s, calls := [] }

/-- sq_scroll_write (lines 99-102): one fwrite of length bytes from ptr;
throws naming the requested length and the filename when the OS transfers
fewer bytes than requested.  osMax is the transfer bound the OS imposes on
this call (a full transfer has osMax ≥ length). -/
def sq_scroll_write (s : Scroll) (ptr : List Byte) (length : Nat) (osMax : Nat) :
    OsOutcome Unit :=
  let r := s.file.fwrite (ptr.take length) osMax
  if r.2 < length then
    { result := .error (.thrown
        ("cannot write " ++ toString length ++ " bytes to '" ++ s.filename ++ "'")),
      scroll := { s with file := r.1 },
      calls := [OsCall.write length] }
  else
    { result := .ok (), scroll := { s with file := r.1 }, calls := [OsCall.write length] }

/-- sq_scroll_tell (lines 104-111): ftell, throwing when the returned
offset is negative (unreachable for the model's Nat positions, but the
guard is kept as in the code). -/
def sq_scroll_tell (s : Scroll) : OsOutcome Int :=
  let value := s.file.ftell
  if value < 0 then
    { result := .error (.thrown ("cannot get offset for '" ++ s.filename ++ "'")),
      scroll := s, calls := [OsCall.tell] }
  else
    { result := .ok value, scroll := s, calls := [OsCall.tell] }

/-- sq_scroll_seek (lines 113-116): fseek, throwing naming the whence and
the filename when it fails. -/
def sq_scroll_seek (s : Scroll) (offset : Int) (whence : Int) : OsOutcome Unit :=
  match s.file.fseek offset whence with
  | none =>
    { result := .error (.thrown
        ("cannot seek '" ++ toString whence ++ "' for '" ++ s.filename ++ "'")),
      scroll := s, calls := [OsCall.seek offset whence] }
  | some f' =>
    { result := .ok (), scroll := { s with file := f' },
      calls := [OsCall.seek offset whence] }

/-- sq_scroll_close (lines 68-71): an unconditional fclose, throwing when
it fails; there is no open/closed state to consult.  osCloseOk injects the
OS result.  (The C format string "unable to close scroll '%s'" is passed
no argument — the message is modelled as the raw format string.) -/
def sq_scroll_close (s : Scroll) (osCloseOk : Bool) : OsOutcome Unit :=
  if osCloseOk then { result := .ok (), scroll := s, calls := [OsCall.close] }
  else
    { result := .error (.thrown "unable to close scroll '%s'"),
      scroll := s, calls := [OsCall.close] }

/-- sq_scroll_deallocate (lines 48-52): frees the filename and mode
buffers and unconditionally calls fclose on the stream — again with no
state check, so it reaches the OS even for an already-closed scroll. -/
def sq_scroll_deallocate (s : Scroll) : OsOutcome Unit :=
  { result := .ok (), scroll := s, calls := [OsCall.close] }

/-- The host's dynamic value kinds reachable in this file: numerals,
texts, the absence-of-value sentinel ni, veracities, builtin journeys
(name and arity), wrapped scrolls, and undefined. -/
inductive SqValue where
  | numeral (n : Int)
  | text (t : SqText)
  | ni
  | veracity (b : Bool)
  | journey (name : String) (nargs : Nat)
  | scrollRef
  | undefined
deriving DecidableEq

/-- The write journey built by sq_scroll_init (NEW_JOURNEY(write, 2)). -/
def write_journey : SqValue := .journey "Scroll.write" 2

/-- The read journey built by sq_scroll_init (NEW_JOURNEY(read, 2)). -/
def read_journey : SqValue := .journey "Scroll.read" 2

/-- The seek journey built by sq_scroll_init (NEW_JOURNEY(seek, 3)). -/
def seek_journey : SqValue := .journey "Scroll.seek" 3

/-- The close journey built by sq_scroll_init (NEW_JOURNEY(close, 1)). -/
def close_journey : SqValue := .journey "Scroll.close" 1

/-- sq_scroll_get_attr (lines 54-66): strcmp dispatch on the attribute
name — "filename" and "mode" return sq_text_new(strdup(...)) copies,
"write"/"read"/"seek" return the journey values, anything else (including
"path" and "close", which have no case) returns SQ_UNDEFINED. -/
def sq_scroll_get_attr (s : Scroll) (attr : String) : SqValue :=
  if attr = "filename" then .text (sq_text_new (strdup (strBytes s.filename)))
  else if attr = "mode" then .text (sq_text_new (strdup (strBytes s.mode)))
  else if attr = "write" then write_journey
  else if attr = "read" then read_journey
  else if attr = "seek" then seek_journey
  else .undefined

/-- Modelled from the spec: sq_value_typename (host runtime, not under
src/) — the runtime type name of a value, used in the invalid-argument
message. -/
def sq_value_typename : SqValue → String
  | .numeral _ => "numeral"
  | .text _ => "text"
  | .ni => "ni"
  | .veracity _ => "veracity"
  | .journey _ _ => "journey"
  | .scrollRef => "other"
  | .undefined => "undefined"

/-- Modelled from the spec: sq_value_to_text (host runtime, not under
src/), the host's generic to-text conversion, total over value kinds; a
text converts to itself, every other kind renders to some text. -/
def sq_value_to_text : SqValue → SqText
  | .text t => t
  | .numeral n => sq_text_new (strBytes (toString n) ++ [0])
  | .ni => sq_text_new (strBytes "ni" ++ [0])
  | .veracity b => sq_text_new (strBytes (if b then "yea" else "nay") ++ [0])
  | .journey nm _ => sq_text_new (strBytes nm ++ [0])
  | .scrollRef => sq_text_new (strBytes "Scroll" ++ [0])
  | .undefined => sq_text_new (strBytes "undefined" ++ [0])

/-- write_func (lines 118-127): the receiver is already marshaled to the
scroll; the second positional argument is converted by the host's generic
sq_value_to_text — no kind check — and its buffer is written; returns ni. -/
def write_func (s : Scroll) (arg : SqValue) (osMax : Nat) : OsOutcome SqValue :=
  let text := sq_value_to_text arg
  let r := sq_scroll_write s text.ptr text.length osMax
  { result := r.result.map (fun _ => SqValue.ni), scroll := r.scroll, calls := r.calls }

/-- read_func (lines 129-164): dispatch on the genus of the second
argument.  A numeral must be nonnegative (checked before any OS call) and
reads that many bytes; a text must compare equal to "\n" as a C string
(anything else dies on a todo) and reads one line via fgetln, throwing
strerror(errno) — the errnoMsg parameter — when fgetln reports no data;
ni dispatches to the sq_scroll_read_all stub; every other value throws
the invalid-kind message (note the source's spelling "arugment"). -/
def read_func (s : Scroll) (arg : SqValue) (errnoMsg : String) : OsOutcome SqValue :=
  match arg with
  | .numeral n =>
    if n < 0 then
      { result := .error (.thrown "can only read nonnegative amounts"),
        scroll := s, calls := [] }
    else
      let r := sq_scroll_read s n.toNat
      { result := r.result.map SqValue.text, scroll := r.scroll, calls := r.calls }
  | .text t =>
    if cstr t.ptr ≠ [10] then
      { result := .error (.fatal "todo: non-newline gets"), scroll := s, calls := [] }
    else
      match s.file.fgetln with
      | (f', none) =>
        { result := .error (.thrown errnoMsg), scroll := { s with file := f' },
          calls := [OsCall.getln] }
      | (f', some line) =>
        { result := .ok (.text (sq_text_new (strndup line line.length))),
          scroll := { s with file := f' }, calls := [OsCall.getln] }
  | .ni =>
    let r := sq_scroll_read_all s
    { result := r.result.map SqValue.text, scroll := r.scroll, calls := r.calls }
  | v =>
    { result := .error (.thrown
        ("invalid read arugment kind '" ++ sq_value_typename v ++ "'")),
      scroll := s, calls := [] }

/-- seek_func (lines 166-176): offset and whence are marshaled through the
host's sq_value_to_numeral (elided — taken here as numerals); the seek
runs and, on success, the returned numeral is what sq_scroll_tell reports
immediately afterwards. -/
def seek_func (s : Scroll) (offset : Int) (whence : Int) : OsOutcome SqValue :=
  let r := sq_scroll_seek s offset whence
  match r.result with
  | .error e => { result := .error e, scroll := r.scroll, calls := r.calls }
  | .ok _ =>
    let r2 := sq_scroll_tell r.scroll
    { result := r2.result.map SqValue.numeral, scroll := r2.scroll,
      calls := r.calls ++ r2.calls }

/-- close_func (lines 178-186): thin wrapper over sq_scroll_close,
returning ni on success. -/
def close_func (s : Scroll) (osCloseOk : Bool) : OsOutcome SqValue :=
  let r := sq_scroll_close s osCloseOk
  { result := r.result.map (fun _ => SqValue.ni), scroll := r.scroll, calls := r.calls }

/-- A scroll just opened on an empty file in a truncating write-then-read
mode (fopen "w+"): no contents, position 0, no error. -/
def freshScroll (filename mode : String) : Scroll :=
  { file := { contents := [], pos := 0, err := false }, filename := filename, mode := mode }


/-! Helper lemmas shared by the claim theorems. -/

/-- A buffer with no NUL byte reads back whole as a C string. -/
theorem cstr_eq_of_not_mem (l : List Byte) (h : (0 : Nat) ∉ l) : cstr l = l := by
  induction l with
  | nil => rfl
  | cons b bs ih =>
    simp only [List.mem_cons, not_or] at h
    have hb : (b != 0) = true := by
      simp only [bne_iff_ne, ne_eq]
      exact fun hb0 => h.1 hb0.symm
    show List.takeWhile (fun b => b != 0) (b :: bs) = b :: bs
    rw [List.takeWhile_cons, if_pos hb]
    exact congrArg (b :: ·) (ih h.2)

/-- Re-reading a freshly terminated C-string copy gives the same bytes. -/
theorem cstr_cstr_append_zero (l : List Byte) : cstr (cstr l ++ [0]) = cstr l := by
  induction l with
  | nil => rfl
  | cons b bs ih =>
    by_cases hb : b = 0
    · subst hb
      simp [cstr]
    · have hb' : (b != 0) = true := by simp [hb]
      have h1 : cstr (b :: bs) = b :: cstr bs := by
        simp only [cstr, List.takeWhile_cons, if_pos hb']
      rw [h1, List.cons_append]
      have h2 : cstr (b :: (cstr bs ++ [0])) = b :: cstr (cstr bs ++ [0]) := by
        simp only [cstr, List.takeWhile_cons, if_pos hb']
      rw [h2, ih]

/-- Writing a NUL over the first pad byte after the data is a no-op on a
zero-filled pad. -/
theorem set_append_replicate_zero (d : List Byte) (k : Nat) :
    (d ++ List.replicate (k + 1) 0).set d.length 0 = d ++ List.replicate (k + 1) 0 := by
  induction d with
  | nil => simp [List.replicate_succ]
  | cons b bs ih => simp [List.set, ih]

/-- The fread loop, run on a regular file with enough fuel, transfers
exactly the first min(n, available) bytes after the position and stops:
either the first read already returns zero, or the second read does. -/
theorem readLoop_eq (c : List Byte) (p : Nat) (e : Bool) (n : Nat) :
    readLoop n ⟨c, p, e⟩ [] (n + 1) =
      (⟨c, p + ((c.drop p).take n).length, e⟩, (c.drop p).take n,
        if ((c.drop p).take n).length = 0 then [OsCall.read n]
        else [OsCall.read n, OsCall.read (n - ((c.drop p).take n).length)]) := by
  have hlen : ((c.drop p).take n).length ≤ n := by
    simp [List.length_take]
  by_cases h0 : ((c.drop p).take n).length = 0
  · rw [if_pos h0]
    have h0' : (c.drop p).take n = [] := List.length_eq_zero.mp h0
    simp [readLoop, SqFile.fread, h0', h0]
  · rw [if_neg h0]
    obtain ⟨m, rfl⟩ : ∃ m, n = m + 1 := ⟨n - 1, by omega⟩
    show readLoop (m + 1) ⟨c, p, e⟩ [] (m + 1 + 1) = _
    rw [readLoop]
    simp only [SqFile.fread, List.length_nil, Nat.sub_zero, List.nil_append]
    rw [if_neg h0]
    rw [readLoop]
    simp only [SqFile.fread]
    have hchunk2 : ((c.drop (p + ((c.drop p).take (m + 1)).length)).take
        ((m + 1) - ((c.drop p).take (m + 1)).length)) = [] := by
      rcases Nat.le_total (m + 1) (c.drop p).length with hle | hle
      · have hl1 : ((c.drop p).take (m + 1)).length = m + 1 := by
          rw [List.length_take, Nat.min_eq_left hle]
        rw [hl1, Nat.sub_self, List.take_zero]
      · have hl : ((c.drop p).take (m + 1)).length = (c.drop p).length := by
          rw [List.length_take, Nat.min_eq_right hle]
        rw [hl]
        have hd : c.drop (p + (c.drop p).length) = [] := by
          rw [← List.drop_drop]
          exact List.drop_length _
        rw [hd, List.take_nil]
    rw [hchunk2]
    simp

/-- Characterization of sq_scroll_read on an error-free stream: it always
succeeds, transfers the first min(n, available) bytes after the position
into the buffer (zero padding behind them), leaves the length field at the
requested n, and advances the position by the transfer count. -/
theorem sq_scroll_read_eq (c : List Byte) (p : Nat) (fn md : String) (n : Nat) :
    sq_scroll_read ⟨⟨c, p, false⟩, fn, md⟩ n =
      { result := .ok ⟨n, ((c.drop p).take n) ++
          List.replicate (n + 1 - ((c.drop p).take n).length) 0⟩,
        scroll := ⟨⟨c, p + ((c.drop p).take n).length, false⟩, fn, md⟩,
        calls := if ((c.drop p).take n).length = 0 then [OsCall.read n]
          else [OsCall.read n, OsCall.read (n - ((c.drop p).take n).length)] } := by
  have hlen : ((c.drop p).take n).length ≤ n := by
    rw [List.length_take]
    exact Nat.min_le_left _ _
  unfold sq_scroll_read
  rw [readLoop_eq]
  have hptr : (((c.drop p).take n) ++
        (sq_text_allocate n).ptr.drop ((c.drop p).take n).length).set
        ((c.drop p).take n).length 0 =
      ((c.drop p).take n) ++ List.replicate (n + 1 - ((c.drop p).take n).length) 0 := by
    show (((c.drop p).take n) ++
        (List.replicate (n + 1) 0).drop ((c.drop p).take n).length).set
        ((c.drop p).take n).length 0 = _
    rw [List.drop_replicate]
    obtain ⟨k, hk⟩ : ∃ k, n + 1 - ((c.drop p).take n).length = k + 1 :=
      ⟨n - ((c.drop p).take n).length, by omega⟩
    rw [hk, set_append_replicate_zero]
  simp only [sq_text_allocate] at hptr ⊢
  simp [hptr]

/-! Claim theorems. -/

/-- C1 counterexample: on a stream holding only two bytes, read(5) succeeds
with 2 bytes transferred (the position moves 0 → 2) yet returns a text
whose length field is 5 — the claim's "returns a text value whose length
equals the number of bytes actually transferred" is false here. -/
theorem c1_counterexample :
    (sq_scroll_read ⟨⟨[97, 98], 0, false⟩, "t.txt", "r"⟩ 5).result =
      .ok ⟨5, [97, 98, 0, 0, 0, 0]⟩ ∧
    (sq_scroll_read ⟨⟨[97, 98], 0, false⟩, "t.txt", "r"⟩ 5).scroll.file.pos = 2 ∧
    (⟨5, [97, 98, 0, 0, 0, 0]⟩ : SqText).length ≠ 2 :=
  ⟨by decide, by decide, by decide⟩

/-- C1 (amended): read(h, N) on an error-free stream repeatedly reads until
N bytes have accumulated or a read transfers zero bytes, and a short
transfer at end of stream is a success, not an error; the transferred
bytes (the first min(N, available) bytes past the position) fill the
returned text's buffer, NUL-terminated at the transfer count — but the
text's length field stays at the requested N, and the position advances by
the transfer count. -/
theorem c1_read_loop_behavior (c : List Byte) (p n : Nat) (fn md : String) :
    (sq_scroll_read ⟨⟨c, p, false⟩, fn, md⟩ n).result =
      .ok ⟨n, ((c.drop p).take n) ++
        List.replicate (n + 1 - ((c.drop p).take n).length) 0⟩ ∧
    (sq_scroll_read ⟨⟨c, p, false⟩, fn, md⟩ n).scroll.file.pos =
      p + ((c.drop p).take n).length := by
  rw [sq_scroll_read_eq]
  exact ⟨rfl, rfl⟩

/-- C2: the code keeps no Open/Closed state — after a successful close,
value deallocation still issues the OS close call, and so does a second
close; nothing fails with an IOError short of the OS call itself.  This
evaluates the code at the claim's failing input (close, then deallocate). -/
theorem c2_double_close_reaches_os :
    (sq_scroll_close ⟨⟨[], 0, false⟩, "t.txt", "w"⟩ true).result = .ok () ∧
    (sq_scroll_deallocate
        (sq_scroll_close ⟨⟨[], 0, false⟩, "t.txt", "w"⟩ true).scroll).calls =
      [OsCall.close] ∧
    (sq_scroll_close
        (sq_scroll_close ⟨⟨[], 0, false⟩, "t.txt", "w"⟩ true).scroll true).calls =
      [OsCall.close] :=
  ⟨rfl, rfl, rfl⟩

/-- C6: read with the ni sentinel reaches sq_scroll_read_all, which is a
todo stub that aborts the process before issuing any OS call, instead of
reading the remaining stream. -/
theorem c6_read_all_is_todo_stub :
    (read_func ⟨⟨[104, 105], 0, false⟩, "t.txt", "r"⟩ .ni "E").result =
      .error (.fatal "todo: sq_scroll_read_all") ∧
    (read_func ⟨⟨[104, 105], 0, false⟩, "t.txt", "r"⟩ .ni "E").calls = [] :=
  ⟨rfl, rfl⟩

/-- C9: a negative numeral argument makes read_func raise the value error
"can only read nonnegative amounts", with no OS call issued and the scroll
untouched. -/
theorem c9_negative_read (s : Scroll) (n : Int) (errnoMsg : String) (h : n < 0) :
    read_func s (.numeral n) errnoMsg =
      { result := .error (.thrown "can only read nonnegative amounts"),
        scroll := s, calls := [] } := by
  simp only [read_func]
  rw [if_pos h]

/-- C9 witness: the theorem applied to read(-1) on a concrete scroll. -/
theorem c9_negative_read_witness :
    ((-1 : Int) < 0) ∧
    read_func ⟨⟨[104, 105], 0, false⟩, "t.txt", "r"⟩ (.numeral (-1)) "E" =
      { result := .error (.thrown "can only read nonnegative amounts"),
        scroll := ⟨⟨[104, 105], 0, false⟩, "t.txt", "r"⟩, calls := [] } :=
  ⟨by decide, c9_negative_read ⟨⟨[104, 105], 0, false⟩, "t.txt", "r"⟩ (-1) "E" (by decide)⟩

/-- C3: on a freshly opened write-then-read handle (fopen "w+": empty
file, position 0), with the OS accepting the full transfer, write(T) then
seek(0,0) then read(T.length) hands back exactly T's bytes, embedded zero
bytes included. -/
theorem c3_write_seek_read_roundtrip (T : SqText) (fn md : String)
    (h : T.length ≤ T.ptr.length) :
    (sq_scroll_write (freshScroll fn md) T.ptr T.length T.length).result = .ok () ∧
    (sq_scroll_seek
        (sq_scroll_write (freshScroll fn md) T.ptr T.length T.length).scroll 0 0).result =
      .ok () ∧
    SqRes.map SqText.bytes
        (sq_scroll_read
          (sq_scroll_seek
            (sq_scroll_write (freshScroll fn md) T.ptr T.length T.length).scroll 0 0).scroll
          T.length).result =
      .ok T.bytes := by
  have hdata : (T.ptr.take T.length).length = T.length := by
    rw [List.length_take]
    exact Nat.min_eq_left h
  have hw : sq_scroll_write (freshScroll fn md) T.ptr T.length T.length =
      { result := .ok (),
        scroll := ⟨⟨T.ptr.take T.length, T.length, false⟩, fn, md⟩,
        calls := [OsCall.write T.length] } := by
    simp [sq_scroll_write, SqFile.fwrite, freshScroll, hdata, List.take_take]
  have hs : sq_scroll_seek (⟨⟨T.ptr.take T.length, T.length, false⟩, fn, md⟩ : Scroll) 0 0 =
      { result := .ok (),
        scroll := ⟨⟨T.ptr.take T.length, 0, false⟩, fn, md⟩,
        calls := [OsCall.seek 0 0] } := rfl
  refine ⟨by rw [hw], by rw [hw, hs], ?_⟩
  rw [hw, hs, sq_scroll_read_eq]
  have hdd : (T.ptr.take T.length).take T.length = T.ptr.take T.length := by
    rw [List.take_take, Nat.min_self]
  simp only [List.drop_zero, hdd, hdata, Nat.add_sub_cancel_left, List.replicate_one,
    SqRes.map]
  rw [SqText.bytes]
  show SqRes.ok (((T.ptr.take T.length) ++ [0]).take T.length) = _
  rw [List.take_left' hdata]
  rfl

/-- C7: write(t) issues one OS write of t.length bytes from the text's
buffer; when the OS transfers everything, those bytes land at the current
position and the position advances by t.length; when the OS transfers
fewer bytes than requested, it raises the IOError naming the requested
length and the path. -/
theorem c7_write_exact_or_ioerror (s : Scroll) (t : SqText) (osMax : Nat)
    (h : t.length ≤ t.ptr.length) :
    (sq_scroll_write s t.ptr t.length osMax).calls = [OsCall.write t.length] ∧
    (t.length ≤ osMax →
      (sq_scroll_write s t.ptr t.length osMax).result = .ok () ∧
      (sq_scroll_write s t.ptr t.length osMax).scroll.file.pos = s.file.pos + t.length ∧
      ((sq_scroll_write s t.ptr t.length osMax).scroll.file.contents.drop
          s.file.pos).take t.length = t.bytes) ∧
    (osMax < t.length →
      (sq_scroll_write s t.ptr t.length osMax).result =
        .error (.thrown ("cannot write " ++ toString t.length ++ " bytes to '" ++
          s.filename ++ "'"))) := by
  have hdata : (t.ptr.take t.length).length = t.length := by
    rw [List.length_take]
    exact Nat.min_eq_left h
  have hdd : (t.ptr.take t.length).take t.length = t.ptr.take t.length := by
    rw [List.take_take, Nat.min_self]
  refine ⟨?_, ?_, ?_⟩
  · by_cases hc : (s.file.fwrite (t.ptr.take t.length) osMax).2 < t.length
    · simp [sq_scroll_write, hc]
    · simp [sq_scroll_write, hc]
  · intro hle
    have hk : min (t.ptr.take t.length).length osMax = t.length := by
      rw [hdata]
      exact Nat.min_eq_left hle
    have hw : sq_scroll_write s t.ptr t.length osMax =
        { result := .ok (),
          scroll := ⟨⟨(s.file.contents ++
              List.replicate (s.file.pos - s.file.contents.length) 0).take s.file.pos ++
              t.ptr.take t.length ++
              (s.file.contents ++
                List.replicate (s.file.pos - s.file.contents.length) 0).drop
                (s.file.pos + t.length),
            s.file.pos + t.length, s.file.err⟩, s.filename, s.mode⟩,
          calls := [OsCall.write t.length] } := by
      simp only [sq_scroll_write, SqFile.fwrite, hk, hdd, Nat.lt_irrefl, if_false]
    refine ⟨by rw [hw], by rw [hw], ?_⟩
    rw [hw]
    have hpad : ((s.file.contents ++
        List.replicate (s.file.pos - s.file.contents.length) 0).take s.file.pos).length =
        s.file.pos := by
      rw [List.length_take, List.length_append, List.length_replicate]
      exact Nat.min_eq_left le_add_tsub
    show ((((s.file.contents ++
        List.replicate (s.file.pos - s.file.contents.length) 0).take s.file.pos ++
        t.ptr.take t.length ++
        (s.file.contents ++
          List.replicate (s.file.pos - s.file.contents.length) 0).drop
          (s.file.pos + t.length)).drop s.file.pos).take t.length) = t.bytes
    rw [List.append_assoc, List.drop_left' hpad, List.take_left' hdata]
    rfl
  · intro hlt
    have hk : min (t.ptr.take t.length).length osMax = osMax := by
      rw [hdata]
      exact Nat.min_eq_right (Nat.le_of_lt hlt)
    simp only [sq_scroll_write, SqFile.fwrite, hk, hlt, if_true]

/-- C7 witness: the theorem applied to a concrete scroll and a text with
an embedded zero byte, with the OS accepting the full transfer. -/
theorem c7_write_exact_or_ioerror_witness :
    ((2 : Nat) ≤ 3) ∧
    ((sq_scroll_write ⟨⟨[7, 8], 1, false⟩, "t.txt", "w"⟩ (⟨2, [9, 0, 5]⟩ : SqText).ptr
        (⟨2, [9, 0, 5]⟩ : SqText).length 2).calls = [OsCall.write 2] ∧
      ((⟨2, [9, 0, 5]⟩ : SqText).length ≤ 2 →
        (sq_scroll_write ⟨⟨[7, 8], 1, false⟩, "t.txt", "w"⟩ (⟨2, [9, 0, 5]⟩ : SqText).ptr
            (⟨2, [9, 0, 5]⟩ : SqText).length 2).result = .ok () ∧
        (sq_scroll_write ⟨⟨[7, 8], 1, false⟩, "t.txt", "w"⟩ (⟨2, [9, 0, 5]⟩ : SqText).ptr
            (⟨2, [9, 0, 5]⟩ : SqText).length 2).scroll.file.pos =
          (⟨⟨[7, 8], 1, false⟩, "t.txt", "w"⟩ : Scroll).file.pos +
            (⟨2, [9, 0, 5]⟩ : SqText).length ∧
        ((sq_scroll_write ⟨⟨[7, 8], 1, false⟩, "t.txt", "w"⟩ (⟨2, [9, 0, 5]⟩ : SqText).ptr
              (⟨2, [9, 0, 5]⟩ : SqText).length 2).scroll.file.contents.drop
            (⟨⟨[7, 8], 1, false⟩, "t.txt", "w"⟩ : Scroll).file.pos).take
            (⟨2, [9, 0, 5]⟩ : SqText).length = (⟨2, [9, 0, 5]⟩ : SqText).bytes) ∧
      ((2 : Nat) < (⟨2, [9, 0, 5]⟩ : SqText).length →
        (sq_scroll_write ⟨⟨[7, 8], 1, false⟩, "t.txt", "w"⟩ (⟨2, [9, 0, 5]⟩ : SqText).ptr
            (⟨2, [9, 0, 5]⟩ : SqText).length 2).result =
          .error (.thrown ("cannot write " ++ toString (⟨2, [9, 0, 5]⟩ : SqText).length ++
            " bytes to '" ++ (⟨⟨[7, 8], 1, false⟩, "t.txt", "w"⟩ : Scroll).filename ++
            "'")))) :=
  ⟨by decide,
    c7_write_exact_or_ioerror ⟨⟨[7, 8], 1, false⟩, "t.txt", "w"⟩ ⟨2, [9, 0, 5]⟩ 2
      (by decide)⟩

/-- C8: seek_func raises the IOError naming whence and the path exactly
when the OS seek fails; on success the numeral it returns is the offset
sq_scroll_tell reports immediately after the seek — the handle's new
absolute position — and for the model's nonnegative positions that tell
query cannot fail. -/
theorem c8_seek_returns_tell (s : Scroll) (offset whence : Int) :
    (s.file.fseek offset whence = none →
      seek_func s offset whence =
        { result := .error (.thrown ("cannot seek '" ++ toString whence ++ "' for '" ++
            s.filename ++ "'")),
          scroll := s, calls := [OsCall.seek offset whence] }) ∧
    (∀ f' : SqFile, s.file.fseek offset whence = some f' →
      (sq_scroll_tell { s with file := f' }).result = .ok (f'.pos : Int) ∧
      seek_func s offset whence =
        { result := .ok (.numeral (f'.pos : Int)),
          scroll := { s with file := f' },
          calls := [OsCall.seek offset whence, OsCall.tell] }) := by
  constructor
  · intro hnone
    simp only [seek_func, sq_scroll_seek, hnone]
  · intro f' hsome
    have hnn : ¬ ((f'.pos : Int) < 0) := not_lt.mpr (Int.natCast_nonneg _)
    constructor
    · simp only [sq_scroll_tell, SqFile.ftell, if_neg hnn]
    · simp only [seek_func, sq_scroll_seek, hsome, sq_scroll_tell, SqFile.ftell,
        if_neg hnn, SqRes.map]
      rfl

/-- C8 witness: the theorem applied to a successful absolute seek on a
concrete three-byte scroll — the OS seek lands at position 2 and the
returned numeral is exactly what tell reports there. -/
theorem c8_seek_returns_tell_witness :
    ((⟨⟨[1, 2, 3], 0, false⟩, "t.txt", "r"⟩ : Scroll).file.fseek 2 0 =
      some ⟨[1, 2, 3], 2, false⟩) ∧
    ((sq_scroll_tell { (⟨⟨[1, 2, 3], 0, false⟩, "t.txt", "r"⟩ : Scroll) with
        file := ⟨[1, 2, 3], 2, false⟩ }).result = .ok ((⟨[1, 2, 3], 2, false⟩ : SqFile).pos : Int) ∧
      seek_func (⟨⟨[1, 2, 3], 0, false⟩, "t.txt", "r"⟩ : Scroll) 2 0 =
        { result := .ok (.numeral ((⟨[1, 2, 3], 2, false⟩ : SqFile).pos : Int)),
          scroll := { (⟨⟨[1, 2, 3], 0, false⟩, "t.txt", "r"⟩ : Scroll) with
            file := ⟨[1, 2, 3], 2, false⟩ },
          calls := [OsCall.seek 2 0, OsCall.tell] }) :=
  ⟨by decide,
    (c8_seek_returns_tell ⟨⟨[1, 2, 3], 0, false⟩, "t.txt", "r"⟩ 2 0).2
      ⟨[1, 2, 3], 2, false⟩ (by decide)⟩

/-- C10: write_func converts any argument kind through the host's generic
to-text conversion and writes that conversion's buffer — it never raises a
type error: one OS write of the conversion's length is always issued, the
stream state is exactly that of sq_scroll_write on the conversion, and the
only possible outcomes are ni on success or the write IOError. -/
theorem c10_write_never_type_errors (s : Scroll) (v : SqValue) (osMax : Nat) :
    (write_func s v osMax).calls = [OsCall.write (sq_value_to_text v).length] ∧
    (write_func s v osMax).scroll =
      (sq_scroll_write s (sq_value_to_text v).ptr (sq_value_to_text v).length osMax).scroll ∧
    ((write_func s v osMax).result = .ok SqValue.ni ∨
      (write_func s v osMax).result =
        .error (.thrown ("cannot write " ++ toString (sq_value_to_text v).length ++
          " bytes to '" ++ s.filename ++ "'"))) := by
  by_cases hc : (s.file.fwrite
      ((sq_value_to_text v).ptr.take (sq_value_to_text v).length) osMax).2 <
      (sq_value_to_text v).length
  · exact ⟨by simp [write_func, sq_scroll_write, hc],
      by simp [write_func, sq_scroll_write, hc],
      Or.inr (by simp [write_func, sq_scroll_write, hc, SqRes.map])⟩
  · exact ⟨by simp [write_func, sq_scroll_write, hc],
      by simp [write_func, sq_scroll_write, hc],
      Or.inl (by simp [write_func, sq_scroll_write, hc, SqRes.map])⟩

/-- C4 counterexample: getAttribute answers the name "filename" (not
"path") and has no case for "close" — so both "path" and "close" fall
through to Undefined, contradicting the claim's path-copy and
bound-close-method clauses. -/
theorem c4_counterexample :
    sq_scroll_get_attr ⟨⟨[], 0, false⟩, "t.txt", "w"⟩ "path" = .undefined ∧
    sq_scroll_get_attr ⟨⟨[], 0, false⟩, "t.txt", "w"⟩ "close" = .undefined ∧
    SqValue.undefined ≠ close_journey :=
  ⟨by decide, by decide, by decide⟩

/-- C4 (amended): getAttribute returns a fresh copy of the handle's path
text under the attribute name "filename", a fresh copy of the mode text
for "mode", the bound journey values for "write", "read" and "seek", and
Undefined for every other name — including "path" and "close". -/
theorem c4_get_attr_cases (s : Scroll) (attr : String)
    (hf : (0 : Nat) ∉ strBytes s.filename) (hm : (0 : Nat) ∉ strBytes s.mode) :
    sq_scroll_get_attr s "filename" =
      .text ⟨(strBytes s.filename).length, strBytes s.filename ++ [0]⟩ ∧
    sq_scroll_get_attr s "mode" =
      .text ⟨(strBytes s.mode).length, strBytes s.mode ++ [0]⟩ ∧
    sq_scroll_get_attr s "write" = write_journey ∧
    sq_scroll_get_attr s "read" = read_journey ∧
    sq_scroll_get_attr s "seek" = seek_journey ∧
    (attr ∉ (["filename", "mode", "write", "read", "seek"] : List String) →
      sq_scroll_get_attr s attr = .undefined) := by
  have hcf : cstr (strBytes s.filename) = strBytes s.filename := cstr_eq_of_not_mem _ hf
  have hcm : cstr (strBytes s.mode) = strBytes s.mode := cstr_eq_of_not_mem _ hm
  have hcf2 : cstr (strBytes s.filename ++ [0]) = strBytes s.filename := by
    have hx := cstr_cstr_append_zero (strBytes s.filename)
    rwa [hcf] at hx
  have hcm2 : cstr (strBytes s.mode ++ [0]) = strBytes s.mode := by
    have hx := cstr_cstr_append_zero (strBytes s.mode)
    rwa [hcm] at hx
  refine ⟨?_, ?_, ?_, ?_, ?_, ?_⟩
  · simp only [sq_scroll_get_attr, if_true, sq_text_new, strdup, hcf, hcf2]
  · simp only [sq_scroll_get_attr, if_neg (by decide : ¬ ("mode" : String) = "filename"),
      if_true, sq_text_new, strdup, hcm, hcm2]
  · simp only [sq_scroll_get_attr, if_neg (by decide : ¬ ("write" : String) = "filename"),
      if_neg (by decide : ¬ ("write" : String) = "mode"), if_true]
  · simp only [sq_scroll_get_attr, if_neg (by decide : ¬ ("read" : String) = "filename"),
      if_neg (by decide : ¬ ("read" : String) = "mode"),
      if_neg (by decide : ¬ ("read" : String) = "write"), if_true]
  · simp only [sq_scroll_get_attr, if_neg (by decide : ¬ ("seek" : String) = "filename"),
      if_neg (by decide : ¬ ("seek" : String) = "mode"),
      if_neg (by decide : ¬ ("seek" : String) = "write"),
      if_neg (by decide : ¬ ("seek" : String) = "read"), if_true]
  · intro hattr
    simp only [List.mem_cons, List.not_mem_nil, or_false, not_or] at hattr
    obtain ⟨h1, h2, h3, h4, h5⟩ := hattr
    simp only [sq_scroll_get_attr, if_neg h1, if_neg h2, if_neg h3, if_neg h4, if_neg h5]

/-- C4 witness: the theorem applied to a concrete scroll with the probe
attribute "path", showing in particular that "path" gets Undefined. -/
theorem c4_get_attr_cases_witness :
    ((0 : Nat) ∉ strBytes "t.txt") ∧ ((0 : Nat) ∉ strBytes "w") ∧
    (sq_scroll_get_attr ⟨⟨[], 0, false⟩, "t.txt", "w"⟩ "filename" =
      .text ⟨(strBytes "t.txt").length, strBytes "t.txt" ++ [0]⟩ ∧
    sq_scroll_get_attr ⟨⟨[], 0, false⟩, "t.txt", "w"⟩ "mode" =
      .text ⟨(strBytes "w").length, strBytes "w" ++ [0]⟩ ∧
    sq_scroll_get_attr ⟨⟨[], 0, false⟩, "t.txt", "w"⟩ "write" = write_journey ∧
    sq_scroll_get_attr ⟨⟨[], 0, false⟩, "t.txt", "w"⟩ "read" = read_journey ∧
    sq_scroll_get_attr ⟨⟨[], 0, false⟩, "t.txt", "w"⟩ "seek" = seek_journey ∧
    ("path" ∉ (["filename", "mode", "write", "read", "seek"] : List String) →
      sq_scroll_get_attr ⟨⟨[], 0, false⟩, "t.txt", "w"⟩ "path" = .undefined)) :=
  ⟨by decide, by decide,
    c4_get_attr_cases ⟨⟨[], 0, false⟩, "t.txt", "w"⟩ "path" (by decide) (by decide)⟩

/-- C5 counterexample: the line text is built with strndup, which stops at
a NUL byte: on the stream whose first line is the four bytes 97 0 98 10,
read("\n") consumes the whole line but returns only the single byte before
the NUL — not one whole line including its terminator. -/
theorem c5_counterexample :
    (read_func ⟨⟨[97, 0, 98, 10, 99], 0, false⟩, "t.txt", "r"⟩
        (.text ⟨1, [10, 0]⟩) "E").result = .ok (.text ⟨1, [97, 0]⟩) ∧
    (read_func ⟨⟨[97, 0, 98, 10, 99], 0, false⟩, "t.txt", "r"⟩
        (.text ⟨1, [10, 0]⟩) "E").scroll.file.pos = 4 ∧
    takeLine [97, 0, 98, 10, 99] = [97, 0, 98, 10] ∧
    SqText.bytes ⟨1, [97, 0]⟩ ≠ [97, 0, 98, 10] :=
  ⟨by decide, by decide, by decide, by decide⟩

/-- C5 (amended): with a text argument equal to "\n" as a C string, read
consumes exactly one line from the current position (terminator included
when present); it returns that line truncated at its first NUL byte — the
whole line whenever the line has no NUL — and when the OS reports no data
available it raises using the OS's error description. -/
theorem c5_read_line (c : List Byte) (p : Nat) (fn md errnoMsg : String) (nl : SqText)
    (hnl : cstr nl.ptr = [10]) :
    (c.drop p = [] →
      read_func ⟨⟨c, p, false⟩, fn, md⟩ (.text nl) errnoMsg =
        { result := .error (.thrown errnoMsg),
          scroll := ⟨⟨c, p, false⟩, fn, md⟩, calls := [OsCall.getln] }) ∧
    (c.drop p ≠ [] →
      read_func ⟨⟨c, p, false⟩, fn, md⟩ (.text nl) errnoMsg =
        { result := .ok (.text ⟨(cstr (takeLine (c.drop p))).length,
            cstr (takeLine (c.drop p)) ++ [0]⟩),
          scroll := ⟨⟨c, p + (takeLine (c.drop p)).length, false⟩, fn, md⟩,
          calls := [OsCall.getln] }) ∧
    ((0 : Nat) ∉ takeLine (c.drop p) → cstr (takeLine (c.drop p)) = takeLine (c.drop p)) := by
  have hcond : ¬ (cstr nl.ptr ≠ [10]) := fun hne => hne hnl
  refine ⟨?_, ?_, fun h0 => cstr_eq_of_not_mem _ h0⟩
  · intro hempty
    simp only [read_func, if_neg hcond, SqFile.fgetln, hempty, List.isEmpty_nil, if_true]
  · intro hne
    have hemp : (c.drop p).isEmpty = false := by
      cases hcd : c.drop p with
      | nil => exact absurd hcd hne
      | cons b bs => rfl
    simp only [read_func, if_neg hcond, SqFile.fgetln, hemp, Bool.false_eq_true, if_false,
      strndup, List.take_length, sq_text_new, cstr_cstr_append_zero]

/-- C5 witness: the theorem applied to a NUL-free stream whose first line
is "hi\n" followed by more bytes — the whole line, newline included, comes
back and the position stops right after it. -/
theorem c5_read_line_witness :
    (cstr (⟨1, [10, 0]⟩ : SqText).ptr = [10]) ∧
    (([104, 105, 10, 120] : List Byte).drop 0 = [] →
      read_func ⟨⟨[104, 105, 10, 120], 0, false⟩, "t.txt", "r"⟩ (.text ⟨1, [10, 0]⟩) "E" =
        { result := .error (.thrown "E"),
          scroll := ⟨⟨[104, 105, 10, 120], 0, false⟩, "t.txt", "r"⟩,
          calls := [OsCall.getln] }) ∧
    (([104, 105, 10, 120] : List Byte).drop 0 ≠ [] →
      read_func ⟨⟨[104, 105, 10, 120], 0, false⟩, "t.txt", "r"⟩ (.text ⟨1, [10, 0]⟩) "E" =
        { result := .ok (.text ⟨(cstr (takeLine (([104, 105, 10, 120] : List Byte).drop 0))).length,
            cstr (takeLine (([104, 105, 10, 120] : List Byte).drop 0)) ++ [0]⟩),
          scroll := ⟨⟨[104, 105, 10, 120], 0 + (takeLine (([104, 105, 10, 120] : List Byte).drop 0)).length,
            false⟩, "t.txt", "r"⟩,
          calls := [OsCall.getln] }) ∧
    ((0 : Nat) ∉ takeLine (([104, 105, 10, 120] : List Byte).drop 0) →
      cstr (takeLine (([104, 105, 10, 120] : List Byte).drop 0)) =
        takeLine (([104, 105, 10, 120] : List Byte).drop 0)) :=
  ⟨by decide,
    c5_read_line [104, 105, 10, 120] 0 "t.txt" "r" "E" ⟨1, [10, 0]⟩ (by decide)⟩

/-- C3 witness: the theorem applied to a concrete four-byte text holding
an embedded zero byte and a newline. -/
theorem c3_write_seek_read_roundtrip_witness :
    ((⟨4, [104, 0, 10, 99]⟩ : SqText).length ≤ (⟨4, [104, 0, 10, 99]⟩ : SqText).ptr.length) ∧
    ((sq_scroll_write (freshScroll "t.txt" "w+") (⟨4, [104, 0, 10, 99]⟩ : SqText).ptr
        (⟨4, [104, 0, 10, 99]⟩ : SqText).length
        (⟨4, [104, 0, 10, 99]⟩ : SqText).length).result = .ok () ∧
      (sq_scroll_seek
          (sq_scroll_write (freshScroll "t.txt" "w+") (⟨4, [104, 0, 10, 99]⟩ : SqText).ptr
            (⟨4, [104, 0, 10, 99]⟩ : SqText).length
            (⟨4, [104, 0, 10, 99]⟩ : SqText).length).scroll 0 0).result = .ok () ∧
      SqRes.map SqText.bytes
          (sq_scroll_read
            (sq_scroll_seek
              (sq_scroll_write (freshScroll "t.txt" "w+")
                (⟨4, [104, 0, 10, 99]⟩ : SqText).ptr
                (⟨4, [104, 0, 10, 99]⟩ : SqText).length
                (⟨4, [104, 0, 10, 99]⟩ : SqText).length).scroll 0 0).scroll
            (⟨4, [104, 0, 10, 99]⟩ : SqText).length).result =
        .ok (⟨4, [104, 0, 10, 99]⟩ : SqText).bytes) :=
  ⟨by decide, c3_write_seek_read_roundtrip ⟨4, [104, 0, 10, 99]⟩ "t.txt" "w+" (by decide)⟩
